import Mathlib

/-!
Verification development for the lifecycle coordinator of the
opentelemetry-lambda collector extension.

The Go sources are shallowly embedded as executable Lean definitions:

* `telemetryapi` — the Telemetry API listener (`Listener.Wait`,
  `Listener.Start`) and subscription client (`Client.Subscribe`);
* `extensionapi` — the control-plane client (`Client.Register`,
  `Client.NextEvent`, `Client.InitError`, `Client.ExitError`, `doRequest`);
* the `main` package — `Collector` (pipeline host) and the
  lifecycle manager's `processEvents` loop.

Concurrency and blocking are made explicit: the correlation queue is
modelled as the schedule of batches that successive `queue.Get` calls
return (an exhausted schedule means the queue stays empty and `Get`
blocks forever, since `queue.Get` of the go-datastructures library takes
no context and waits until items are available), and context
cancellation is modelled as the loop-iteration index from which
`ctx.Done()` is ready.
-/

namespace OtelLambda

/-- A JSON-decoded Go `any` value, as stored in `Event.Record`
(`map[string]any` filled by `json.Unmarshal`). -/
inductive JVal where
  | jnull
  | jstr (s : String)
  | jnum (n : Int)
  | jbool (b : Bool)
deriving DecidableEq

/-- Go mixed comparison `v == s` between a `map[string]any` value `v` and a
`string` `s`: true exactly when the dynamic type of `v` is `string` and the
contents are equal; `nil` (a missing map key) and non-string values compare
unequal to every string. -/
def JVal.eqString : JVal → String → Bool
  | .jstr s, r => s == r
  | _, _ => false

/-- `telemetryapi.Event` (types.go): `{Time, Type string; Record map[string]any}`. -/
structure Event where
  time : String
  type : String
  record : List (String × JVal)
deriving DecidableEq

/-- Go map lookup `record["k"]`; a missing key yields the zero value `nil`. -/
def recLookup (k : String) : List (String × JVal) → JVal
  | [] => .jnull
  | (k', v) :: rest => if k' == k then v else recLookup k rest

/-- types.go: `PLATFORM_RUNTIME_DONE = "platform.runtimeDone"`. -/
def PLATFORM_RUNTIME_DONE : String := "platform.runtimeDone"

/-- types.go: `PLATFORM_LOGS_DROPPED = "platform.logsDropped"`. -/
def PLATFORM_LOGS_DROPPED : String := "platform.logsDropped"

/-- An item held by the correlation queue.  The queue stores `interface{}`
values; `Listener.Wait` type-asserts each one to `Event` and warns about
anything else (`Non-Event found in queue`), so the model keeps a non-event
constructor. -/
inductive QItem where
  | ev (e : Event)
  | other
deriving DecidableEq

/-- The branch taken by the body of the `for _, item := range items` loop in
`Listener.Wait` for a single dequeued item, in the source's order of checks:
failed type assertion → warn; `i.Type == PLATFORM_LOGS_DROPPED` → log the
dropped-events error and continue; `i.Type != "platform.runtimeDone"` →
continue; `i.Record["requestId"] == requestId` → return nil; otherwise
continue. -/
inductive ItemAct where
  | nonEventWarn
  | droppedWarn
  | skipOtherType
  | skipOtherId
  | matchFound
deriving DecidableEq

/-- Dispatch of one dequeued item inside `Listener.Wait` (part_005 lines
141–162), following the source's checks in order. -/
def itemAct (requestId : String) : QItem → ItemAct
  | .other => .nonEventWarn
  | .ev i =>
    if i.type == PLATFORM_LOGS_DROPPED then .droppedWarn
    else if i.type != PLATFORM_RUNTIME_DONE then .skipOtherType
    else if (recLookup "requestId" i.record).eqString requestId then .matchFound
    else .skipOtherId

/-- Whether a dequeued item makes `Listener.Wait` return nil. -/
def isMatch (requestId : String) (it : QItem) : Bool :=
  itemAct requestId it == ItemAct.matchFound

/-- What one call to `queue.Get(minBatchSize)` returns: a batch of items, or
the error the queue reports once disposed. -/
inductive GetResult where
  | items (its : List QItem)
  | qerr (msg : String)
deriving DecidableEq

/-- Outcome of a run of `Listener.Wait`.  `blockedInGet` is the run that
never returns: the schedule of `queue.Get` results is exhausted, i.e. the
queue stays empty forever and `Get` — which takes no context — blocks. -/
inductive WaitOutcome where
  | ok
  | cancelled
  | queueErr
  | blockedInGet
deriving DecidableEq

/-- Whether `ctx.Done()` is ready at loop iteration `i`: `cancelAt = some k`
means the context is cancelled from iteration `k` on; `none` means it is
never cancelled. -/
def cancelReady : Option Nat → Nat → Bool
  | none, _ => false
  | some k, i => k ≤ i

/-- The loop of `Listener.Wait` (part_005 lines 129–165), one schedule entry
per iteration.  At the top of each iteration the `select` observes
`ctx.Done()` if it is ready (a ready channel wins over the `default`
branch); otherwise the `default` branch calls `queue.Get`, which either
blocks forever (exhausted schedule), reports a queue error, or yields a
batch that the inner loop scans with `itemAct`, returning nil on the first
match. -/
def waitFrom (requestId : String) (cancelAt : Option Nat) (i : Nat) :
    List GetResult → WaitOutcome
  | [] => if cancelReady cancelAt i then .cancelled else .blockedInGet
  | g :: rest =>
    if cancelReady cancelAt i then .cancelled
    else
      match g with
      | .qerr _ => .queueErr
      | .items its =>
        if its.any (isMatch requestId) then .ok
        else waitFrom requestId cancelAt (i + 1) rest

/-- `Listener.Wait(ctx, requestId)` as a function of the cancellation time
and the schedule of `queue.Get` results. -/
def Listener.Wait (requestId : String) (cancelAt : Option Nat)
    (gets : List GetResult) : WaitOutcome :=
  waitFrom requestId cancelAt 0 gets

/-- The spec's matching condition, stated from its words: a "runtime done"
event whose record field `requestId` equals the awaited id. -/
def claimRuntimeDoneFor (requestId : String) : QItem → Bool
  | .ev e => e.type == PLATFORM_RUNTIME_DONE
      && (recLookup "requestId" e.record).eqString requestId
  | .other => false

theorem isMatch_eq_claim (R : String) (it : QItem) :
    isMatch R it = claimRuntimeDoneFor R it := by
  cases it with
  | other => rfl
  | ev e =>
    simp only [isMatch, itemAct, claimRuntimeDoneFor]
    cases hd : e.type == PLATFORM_LOGS_DROPPED with
    | true =>
      have ht : e.type = PLATFORM_LOGS_DROPPED := by simpa using hd
      have h2 : (PLATFORM_LOGS_DROPPED == PLATFORM_RUNTIME_DONE) = false := by decide
      simp [ht, h2]
    | false =>
      cases he : e.type == PLATFORM_RUNTIME_DONE with
      | true =>
        cases hr : (recLookup "requestId" e.record).eqString R with
        | true => simp [hd, he, hr, bne]
        | false => simp [hd, he, hr, bne]
      | false => simp [hd, he, bne]

theorem waitFrom_none_ok_iff (R : String) (gets : List (List QItem)) (i : Nat) :
    (waitFrom R none i (gets.map GetResult.items) = .ok ↔
      ∃ it, it ∈ gets.flatten ∧ isMatch R it = true) := by
  induction gets generalizing i with
  | nil => simp [waitFrom, cancelReady]
  | cons b rest ih =>
    have hstep : waitFrom R none i ((b :: rest).map GetResult.items)
        = (if b.any (isMatch R) then WaitOutcome.ok
           else waitFrom R none (i + 1) (rest.map GetResult.items)) := rfl
    rw [hstep]
    by_cases h : b.any (isMatch R) = true
    · rw [if_pos h]
      obtain ⟨x, hx, hpx⟩ := List.any_eq_true.mp h
      constructor
      · intro _
        exact ⟨x, List.mem_flatten.mpr ⟨b, List.mem_cons_self b rest, hx⟩, hpx⟩
      · intro _
        rfl
    · rw [if_neg h, ih (i + 1)]
      constructor
      · rintro ⟨x, hx, hpx⟩
        obtain ⟨s, hs, hxs⟩ := List.mem_flatten.mp hx
        exact ⟨x, List.mem_flatten.mpr ⟨s, List.mem_cons_of_mem b hs, hxs⟩, hpx⟩
      · rintro ⟨x, hx, hpx⟩
        obtain ⟨s, hs, hxs⟩ := List.mem_flatten.mp hx
        rcases List.mem_cons.mp hs with hsb | hsr
        · exact absurd (List.any_eq_true.mpr ⟨x, hsb ▸ hxs, hpx⟩) h
        · exact ⟨x, List.mem_flatten.mpr ⟨s, hsr, hxs⟩, hpx⟩

/-- Claim C1: with the context never cancelled and the queue healthy,
`Listener.Wait(ctx, R)` returns success (nil error) if and only if some
dequeued event of type "platform.runtimeDone" whose record field
"requestId" equals `R` is encountered; runtime-done events carrying any
other request id (and all other items) are dequeued but not matched, and
the loop keeps going. -/
theorem c1_wait_success_iff_runtime_done_match (R : String)
    (gets : List (List QItem)) :
    Listener.Wait R none (gets.map GetResult.items) = .ok ↔
      ∃ it, it ∈ gets.flatten ∧ claimRuntimeDoneFor R it = true := by
  have h := waitFrom_none_ok_iff R gets 0
  simpa [Listener.Wait, isMatch_eq_claim] using h

/-- Claim C2 (code bug): cancellation is only observed by the `select` at
the top of the loop.  If the context is cancelled after `Wait` has already
entered `queue.Get` on an empty queue (empty schedule, cancellation ready
from iteration 1 on), the call blocks in `Get` forever and never returns
the cancellation error; only a cancellation already ready at the loop top
(iteration 0) is returned. -/
theorem c2_cancelled_while_blocked_in_get_never_returns :
    Listener.Wait "req-1" (some 1) [] = .blockedInGet ∧
    Listener.Wait "req-1" (some 0) [] = .cancelled := by
  constructor <;> rfl

/-- Claim C7: a dequeued "platform.logsDropped" event is recorded as a
non-fatal warning (`droppedWarn` branch), never satisfies the match
condition — even when its record's requestId equals the awaited id — and
the wait loop continues with the same outcome as if the event were absent. -/
theorem c7_dropped_events_warn_and_never_match (R t : String)
    (rec : List (String × JVal)) (batch : List QItem) (rest : List GetResult) :
    itemAct R (.ev ⟨t, PLATFORM_LOGS_DROPPED, rec⟩) = .droppedWarn ∧
    isMatch R (.ev ⟨t, PLATFORM_LOGS_DROPPED, [("requestId", JVal.jstr R)]⟩) = false ∧
    Listener.Wait R none (.items (.ev ⟨t, PLATFORM_LOGS_DROPPED, rec⟩ :: batch) :: rest) =
      Listener.Wait R none (.items batch :: rest) := by
  refine ⟨by simp [itemAct], by simp [isMatch, itemAct], ?_⟩
  simp [Listener.Wait, waitFrom, cancelReady, isMatch, itemAct]

/-! ## Pipeline host: `Collector` (part_001) -/

/-- The `Collector` state visible to `Stop`: the `stopped` flag, the `err`
variable captured by the closure `Start` spawns around `svc.Run` (an
asynchronous run-loop failure writes it after `Start` has returned), and
whether the `appDone` channel has been closed (the run loop has exited). -/
structure Collector where
  stopped : Bool
  runErr : Option String
  appDoneClosed : Bool
deriving DecidableEq

/-- `Collector.Stop` (part_001 lines 281–291): if not yet stopped, set the
flag and call `svc.Shutdown()`; then block on `<-c.appDone` until the run
loop has exited; return nil unconditionally.  The returned error is the
second component; the state after the blocking receive has `appDoneClosed`. -/
def Collector.Stop (c : Collector) : Collector × Option String :=
  ({ c with stopped := true, appDoneClosed := true }, none)

/-- An asynchronous failure of `svc.Run` after `Start` returned success:
the goroutine writes the captured `err` and `close(c.appDone)` runs. -/
def Collector.asyncRunFailure (c : Collector) (e : String) : Collector :=
  { c with runErr := some e, appDoneClosed := true }

/-- The `Collector` as `Start` leaves it on the success path
(`service.StateRunning` reached, no error observed). -/
def Collector.afterStart : Collector :=
  { stopped := false, runErr := none, appDoneClosed := false }

/-- Claim C6 counterexample: after a successful `Start`, the run loop fails
asynchronously (`svc.Run` returns an error, written into the captured
`err`), yet the next `Stop` still returns nil — the failure is not
surfaced. -/
theorem c6_counterexample_stop_swallows_async_failure :
    (Collector.Stop (Collector.afterStart.asyncRunFailure "exporter failed")).2
      = none := rfl

/-- Claim C6 (amended): `Stop` is idempotent and returns only once the run
loop has exited (`appDoneClosed`), but it returns nil unconditionally — an
asynchronous run-loop failure recorded after `Start` is never surfaced by
`Stop`. -/
theorem c6_stop_idempotent_blocking_but_always_nil (c : Collector) :
    (Collector.Stop c).2 = none ∧
    (Collector.Stop c).1.stopped = true ∧
    (Collector.Stop c).1.appDoneClosed = true ∧
    (Collector.Stop c).1.runErr = c.runErr ∧
    Collector.Stop (Collector.Stop c).1 = ((Collector.Stop c).1, none) := by
  refine ⟨rfl, rfl, rfl, rfl, rfl⟩

/-! ## Lifecycle coordinator: `processEvents` (part_004) -/

/-- `extensionapi.NextEventResponse`, restricted to the fields
`processEvents` reads (`EventType` is a string type; `Shutdown = "SHUTDOWN"`). -/
structure NextEventResponse where
  eventType : String
  requestID : String
deriving DecidableEq

/-- What one `extensionClient.NextEvent(ctx)` call yields to the loop. -/
inductive NextEventResult where
  | err (msg : String)
  | ok (resp : NextEventResponse)
deriving DecidableEq

/-- The externally observable calls the coordinator loop makes, in order. -/
inductive CoordAction where
  | nextEventCall
  | exitErrorCall (msg : String)
  | listenerShutdownCall
  | collectorStopCall
  | waitCall (requestId : String)
deriving DecidableEq

/-- `lifecycleManager.processEvents` (part_004 lines 110–144) as the trace
of calls it makes, driven by the successive `NextEvent` results.  On a
`NextEvent` error: report via `ExitError` and return.  On `"SHUTDOWN"`:
shut the listener down, stop the collector, call `ExitError` only if
`collector.Stop()` returned an error, and return.  On anything else
(an `"INVOKE"`): call `listener.Wait` (its error is only logged) and loop.
An exhausted result list means the loop is still blocked inside
`NextEvent`. -/
def processEvents (c : Collector) : List NextEventResult → List CoordAction
  | [] => []
  | .err m :: _ => [.nextEventCall, .exitErrorCall m]
  | .ok r :: rest =>
    if r.eventType == "SHUTDOWN" then
      [.nextEventCall, .listenerShutdownCall, .collectorStopCall] ++
        (match (Collector.Stop c).2 with
         | some e => [.exitErrorCall e]
         | none => [])
    else
      .nextEventCall :: .waitCall r.requestID :: processEvents c rest

/-- Whether a coordinator action is a `reportExitError` call. -/
def isExitErrorCall : CoordAction → Bool
  | .exitErrorCall _ => true
  | _ => false

/-- Claim C5 counterexample: on a `Shutdown` event the loop stops the
listener and the collector and terminates, but `Collector.Stop` returns
nil, so `ExitError` is invoked zero times — not exactly once as claimed. -/
theorem c5_counterexample_shutdown_reports_no_exit_error :
    (processEvents Collector.afterStart
        [.ok ⟨"SHUTDOWN", "req-7"⟩]).countP (fun a => isExitErrorCall a)
      = 0 := by decide

/-- Claim C5 (amended): on a `Shutdown` event the coordinator stops both
the Telemetry Listener and the Pipeline Host and the loop terminates
(any later results are never consumed); `ExitError` would be called only
if `Collector.Stop` returned an error, and since it always returns nil the
shutdown path invokes `ExitError` zero times. -/
theorem c5_shutdown_stops_both_and_terminates (c : Collector) (r : String)
    (rest : List NextEventResult) :
    processEvents c (.ok ⟨"SHUTDOWN", r⟩ :: rest) =
      [.nextEventCall, .listenerShutdownCall, .collectorStopCall] ∧
    (processEvents c (.ok ⟨"SHUTDOWN", r⟩ :: rest)).countP
        (fun a => isExitErrorCall a) = 0 := by
  constructor
  · simp [processEvents, Collector.Stop]
  · simp [processEvents, Collector.Stop, List.countP, List.countP.go, isExitErrorCall]

/-! ## HTTP transport outcomes shared by both clients -/

/-- An `*http.Response` as the embedded clients read it: status code,
status line text, body bytes, and the `Lambda-Extension-Identifier`
response header. -/
structure HttpResp where
  status : Nat
  statusText : String
  body : String
  headerExtensionId : String
deriving DecidableEq

/-- What `httpClient.Do` produces for one request: a connection-level
failure or a response. -/
inductive HttpResult where
  | transportErr (msg : String)
  | resp (r : HttpResp)
deriving DecidableEq

/-! ## Telemetry subscription client: `Client.Subscribe` (part_005) -/

/-- `telemetryapi.Client.Subscribe` (part_005 lines 222–280) as a function
of the transport outcome of the single PUT.  Marshalling the fixed
`SubscribeRequest` cannot fail and is elided; `io.ReadAll` of the body is
modelled as yielding the body (its error is discarded on the success path
by `body, _ := io.ReadAll(...)`).  A 202 logs that the Telemetry API is
unsupported and falls through to the success return; any status other than
200 and 202 returns an error built from the status and body; 200 returns
the body with nil error. -/
def Client.Subscribe (net : HttpResult) : String × Option String :=
  match net with
  | .transportErr e => ("", some e)
  | .resp r =>
    if r.status == 202 then (r.body, none)
    else if r.status != 200 then
      ("", some ("request failed: " ++ r.statusText ++ " " ++ r.body))
    else (r.body, none)

/-- Claim C9: a 200 response and a 202 response produce the same shape of
result from `Subscribe` — the response body and nil error — so the caller
cannot tell the degraded-environment outcome from a normal subscription
from the return values alone. -/
theorem c9_subscribe_200_and_202_indistinguishable
    (t t' b hid hid' : String) :
    Client.Subscribe (.resp ⟨200, t, b, hid⟩) = (b, none) ∧
    Client.Subscribe (.resp ⟨202, t', b, hid'⟩) = (b, none) ∧
    Client.Subscribe (.resp ⟨200, t, b, hid⟩) =
      Client.Subscribe (.resp ⟨202, t', b, hid'⟩) := by
  refine ⟨rfl, rfl, rfl⟩

/-! ## Lifecycle startup: `newLifecycleManager` (part_004) -/

/-- The Go `lifecycleManager` struct holds exactly a collector, an
extension client and a listener — in particular it has no field recording
the subscription outcome, so nothing downstream can depend on a 202. -/
structure LifecycleManager where
  collector : Collector
deriving DecidableEq

/-- The startup inputs `newLifecycleManager` (part_004 lines 50–108)
branches on: whether registration succeeded, the transport outcome of the
subscription PUT, and the error from `collector.Start`.  (`listener.Start`
always returns a nil error — see `Listener.Start` below — and the
components/`NewCollector` steps are taken as succeeding.) -/
structure LifecycleSetup where
  registerOk : Bool
  subscribeNet : HttpResult
  collectorStartErr : Option String
deriving DecidableEq

/-- `newLifecycleManager`: each failed step logs and returns a nil manager;
a 202 subscription produces a nil `Subscribe` error, so startup proceeds
and the returned manager is identical to the 200 case. -/
def newLifecycleManager (s : LifecycleSetup) (c : Collector) :
    Option LifecycleManager :=
  if !s.registerOk then none
  else
    match (Client.Subscribe s.subscribeNet).2 with
    | some _ => none
    | none =>
      match s.collectorStartErr with
      | some _ => none
      | none => some ⟨c⟩

/-- A whole run: `main` builds the manager and, if it is non-nil, runs
`processEvents`; a nil manager produces no coordinator actions. -/
def coordinatorRun (s : LifecycleSetup) (c : Collector)
    (events : List NextEventResult) : List CoordAction :=
  match newLifecycleManager s c with
  | none => []
  | some lm => processEvents lm.collector events

/-- Claim C3 counterexample: a run whose subscription PUT returned 202
still calls the Listener's `Wait` on the next `Invoke` event — there is no
degraded drain strategy. -/
theorem c3_counterexample_202_still_calls_wait :
    CoordAction.waitCall "req-9" ∈
      coordinatorRun ⟨true, .resp ⟨202, "202 Accepted", "subscribed", ""⟩, none⟩
        Collector.afterStart
        [.ok ⟨"INVOKE", "req-9"⟩, .ok ⟨"SHUTDOWN", "req-9"⟩] := by
  decide

/-- Claim C3 (amended): a 202 subscription response is treated as a
non-error outcome (`Subscribe` returns the body with nil error) and
startup proceeds, but no degraded-strategy flag exists: the run after a
202 is identical to the run after a 200, and every `Invoke` event makes
the coordinator call the Listener's `Wait`. -/
theorem c3_202_nonerror_but_wait_called_as_after_200
    (t t' b : String) (c : Collector) (events : List NextEventResult)
    (r : String) (rest : List NextEventResult) :
    Client.Subscribe (.resp ⟨202, t, b, ""⟩) = (b, none) ∧
    coordinatorRun ⟨true, .resp ⟨202, t, b, ""⟩, none⟩ c events =
      coordinatorRun ⟨true, .resp ⟨200, t', b, ""⟩, none⟩ c events ∧
    processEvents c (.ok ⟨"INVOKE", r⟩ :: rest) =
      .nextEventCall :: .waitCall r :: processEvents c rest := by
  refine ⟨rfl, rfl, ?_⟩
  simp [processEvents]

/-! ## Telemetry listener startup: `Listener.Start` (part_005) -/

/-- port constant from part_005: `defaultListenerPort = "4323"`. -/
def defaultListenerPort : String := "4323"

/-- `listenOnAddress` (part_005 lines 53–64): the bind address depends on
the `AWS_SAM_LOCAL` environment variable. -/
def listenOnAddress (samLocal : Option String) : String :=
  if samLocal == some "true" then ":" ++ defaultListenerPort
  else "sandbox:" ++ defaultListenerPort

/-- How a call to `Listener.Start` ends: a panic out of
`http.HandleFunc`, or a normal return carrying the URI, the returned error
and whether the spawned `ListenAndServe` goroutine had already bound the
socket and begun accepting by the time `Start` returned. -/
inductive StartResult where
  | panicked (msg : String)
  | returned (uri : String) (err : Option String) (acceptingAtReturn : Bool)
deriving DecidableEq

/-- `Listener.Start` (part_005 lines 68–87) over the process-wide default
mux, modelled as the list of registered patterns.  `http.HandleFunc("/",…)`
registers on the default mux and — per net/http's documented `ServeMux`
behaviour — panics if the pattern is already registered.  The server is
started with `go func(){ s.httpServer.ListenAndServe() … }()` and `Start`
returns the URI with nil error immediately; whether the goroutine has
already reached `ListenAndServe` by then is a scheduling fact
(`goroutineRan`), not something `Start` waits for. -/
def Listener.Start (samLocal : Option String) (routes : List String)
    (goroutineRan : Bool) : StartResult × List String :=
  let address := listenOnAddress samLocal
  if routes.contains "/" then
    (.panicked "http: multiple registrations for /", routes)
  else
    (.returned ("http://" ++ address ++ "/") none goroutineRan, "/" :: routes)

/-- Claim C4 counterexample: a schedule in which the goroutine has not yet
run when `Start` returns.  `Start` still returns the URI with nil error
while the socket is not accepting connections, so a subscribe request
issued immediately can fail to reach the Listener. -/
theorem c4_counterexample_start_returns_before_accepting :
    (Listener.Start none [] false).1 =
      .returned "http://sandbox:4323/" none false := by decide

/-- Claim C4 (amended): on a fresh mux, `Start` registers the handler and
returns the listener URI with nil error unconditionally; whether the
socket is accepting when `Start` returns is exactly whatever goroutine
scheduling happened to do — `Start` performs no synchronisation that would
make it true, so the subscribe request issued immediately afterwards is
not guaranteed to reach the Listener. -/
theorem c4_start_returns_immediately_without_readiness
    (samLocal : Option String) (g : Bool) :
    Listener.Start samLocal [] g =
      (.returned ("http://" ++ listenOnAddress samLocal ++ "/") none g, ["/"]) := by
  simp [Listener.Start]

/-- Claim C10: `Start` registers pattern "/" on the process-wide default
mux; a first call from a fresh mux succeeds and leaves "/" registered, so
a second call — on the same Listener or any other in the process — panics
with net/http's duplicate-registration panic. -/
theorem c10_second_start_panics (samLocal samLocal' : Option String)
    (g g' : Bool) :
    (Listener.Start samLocal [] g).2 = ["/"] ∧
    (Listener.Start samLocal' ["/"] g').1 =
      .panicked "http: multiple registrations for /" := by
  constructor
  · simp [Listener.Start]
  · rfl

/-! ## Control-plane client: `extensionapi.Client` (client.go) -/

namespace extensionapi

/-- `extensionapi.RegisterResponse`: JSON body fields plus the
`ExtensionID` captured from the response header. -/
structure RegisterResponse where
  functionName : String
  functionVersion : String
  handler : String
  extensionID : String
deriving DecidableEq

/-- `extensionapi.StatusResponse`: body of `/init/error` and `/exit/error`. -/
structure StatusResponse where
  status : String
deriving DecidableEq

/-- What `doRequest` hands back to its caller: either an error (paired with
the possibly-nil `*http.Response` the Go function returns alongside it —
non-nil only on the unmarshal-failure path) or the response plus the
decoded value. -/
inductive DoRequestRes (α : Type) where
  | failure (resp : Option HttpResp) (err : String)
  | success (resp : HttpResp) (out : α)

/-- `Client.doRequest` (client.go lines 192–216).  The transport is the
schedule of responses successive `httpClient.Do` calls would receive;
`doRequest` performs exactly one `Do`, so it consumes exactly the head and
returns the untouched tail.  In order: a connection-level failure is
returned as-is; a status other than 200 returns an error (and a nil
response); then the body is read (`readErr` models `io.ReadAll` failing);
then `json.Unmarshal` decodes it (`decode` returning `none` models a
malformed body, where Go returns the response together with the error). -/
def doRequest {α : Type} (decode : String → Option α) (nets : List HttpResult)
    (readErr : Option String) : DoRequestRes α × List HttpResult :=
  match nets with
  | [] => (.failure none "transport produced no response", [])
  | .transportErr e :: rest => (.failure none e, rest)
  | .resp r :: rest =>
    (if r.status ≠ 200 then
       .failure none ("request failed with status " ++ r.statusText)
     else
       match readErr with
       | some e2 => .failure none e2
       | none =>
         match decode r.body with
         | none => .failure (some r) "json: cannot unmarshal body"
         | some v => .success r v,
     rest)

/-- `Client.Register` (client.go lines 93–122): one POST via `doRequest`;
on error returns `(nil, err)`; on success captures the
`Lambda-Extension-Identifier` header into the response. -/
def Client.Register (decode : String → Option RegisterResponse)
    (nets : List HttpResult) (readErr : Option String) :
    (Option RegisterResponse × Option String) × List HttpResult :=
  let d := doRequest decode nets readErr
  (match d.1 with
   | .failure _ e => (none, some e)
   | .success r v => (some { v with extensionID := r.headerExtensionId }, none),
   d.2)

/-- `Client.NextEvent` (client.go lines 125–143): one GET via `doRequest`;
`(nil, err)` on error, the decoded response otherwise. -/
def Client.NextEvent (decode : String → Option NextEventResponse)
    (nets : List HttpResult) (readErr : Option String) :
    (Option NextEventResponse × Option String) × List HttpResult :=
  let d := doRequest decode nets readErr
  (match d.1 with
   | .failure _ e => (none, some e)
   | .success _ v => (some v, none),
   d.2)

/-- `Client.InitError` (client.go lines 147–166): one POST via `doRequest`;
`(nil, err)` on error, the decoded status otherwise. -/
def Client.InitError (decode : String → Option StatusResponse)
    (nets : List HttpResult) (readErr : Option String) :
    (Option StatusResponse × Option String) × List HttpResult :=
  let d := doRequest decode nets readErr
  (match d.1 with
   | .failure _ e => (none, some e)
   | .success _ v => (some v, none),
   d.2)

/-- `Client.ExitError` (client.go lines 170–189): identical shape to
`InitError` against the `/exit/error` action. -/
def Client.ExitError (decode : String → Option StatusResponse)
    (nets : List HttpResult) (readErr : Option String) :
    (Option StatusResponse × Option String) × List HttpResult :=
  let d := doRequest decode nets readErr
  (match d.1 with
   | .failure _ e => (none, some e)
   | .success _ v => (some v, none),
   d.2)

end extensionapi

/-- Claim C8: for each control-plane call (`Register`, `NextEvent`,
`InitError`, `ExitError`), a response with status other than 200 yields an
error and no result value; a connection-level failure likewise yields an
error; and every call consumes exactly one transport response — the tail
of the schedule is returned untouched, so no request is ever retried. -/
theorem c8_control_plane_non200_fails_and_never_retries
    (r : HttpResp) (e : String) (rest : List HttpResult)
    (readErr : Option String)
    (decR : String → Option extensionapi.RegisterResponse)
    (decN : String → Option NextEventResponse)
    (decI decX : String → Option extensionapi.StatusResponse) :
    (r.status ≠ 200 →
      (extensionapi.Client.Register decR (.resp r :: rest) readErr).1 =
        (none, some ("request failed with status " ++ r.statusText)) ∧
      (extensionapi.Client.NextEvent decN (.resp r :: rest) readErr).1 =
        (none, some ("request failed with status " ++ r.statusText)) ∧
      (extensionapi.Client.InitError decI (.resp r :: rest) readErr).1 =
        (none, some ("request failed with status " ++ r.statusText)) ∧
      (extensionapi.Client.ExitError decX (.resp r :: rest) readErr).1 =
        (none, some ("request failed with status " ++ r.statusText))) ∧
    ((extensionapi.Client.Register decR (.transportErr e :: rest) readErr).1 =
        (none, some e) ∧
     (extensionapi.Client.NextEvent decN (.transportErr e :: rest) readErr).1 =
        (none, some e) ∧
     (extensionapi.Client.InitError decI (.transportErr e :: rest) readErr).1 =
        (none, some e) ∧
     (extensionapi.Client.ExitError decX (.transportErr e :: rest) readErr).1 =
        (none, some e)) ∧
    (∀ n : HttpResult,
      (extensionapi.Client.Register decR (n :: rest) readErr).2 = rest ∧
      (extensionapi.Client.NextEvent decN (n :: rest) readErr).2 = rest ∧
      (extensionapi.Client.InitError decI (n :: rest) readErr).2 = rest ∧
      (extensionapi.Client.ExitError decX (n :: rest) readErr).2 = rest) := by
  refine ⟨?_, ⟨rfl, rfl, rfl, rfl⟩, ?_⟩
  · intro h
    refine ⟨?_, ?_, ?_, ?_⟩ <;>
      simp [extensionapi.Client.Register, extensionapi.Client.NextEvent,
        extensionapi.Client.InitError, extensionapi.Client.ExitError,
        extensionapi.doRequest, h]
  · intro n
    cases n <;> exact ⟨rfl, rfl, rfl, rfl⟩

/-- Witness for C8 at a concrete failing response: status 500 makes all
four calls return an error with no result value. -/
theorem c8_witness :
    (extensionapi.Client.Register (fun _ => none)
        (.resp ⟨500, "500 Internal Server Error", "oops", ""⟩ :: []) none).1 =
      (none, some ("request failed with status " ++ "500 Internal Server Error")) ∧
    (extensionapi.Client.ExitError (fun _ => none)
        (.resp ⟨500, "500 Internal Server Error", "oops", ""⟩ :: []) none).1 =
      (none, some ("request failed with status " ++ "500 Internal Server Error")) :=
  let h := c8_control_plane_non200_fails_and_never_retries
    ⟨500, "500 Internal Server Error", "oops", ""⟩ "connection refused" [] none
    (fun _ => none) (fun _ => none) (fun _ => none) (fun _ => none)
  ⟨(h.1 (by decide)).1, (h.1 (by decide)).2.2.2⟩

end OtelLambda
